import Mathlib

/-!
Verification of the JSON-Schema-to-Spark-schema translator from
reports/socorro_import/ImportCrashData.ipynb (functions create_struct,
replace_definitions, get_rows).

The Python code works on dictionaries produced by json.load, so the embedding
models JSON values directly, together with the Python operations the code
uses: the membership test (k in x), subscription (x[k]), the str()
serialization used by the stray-reference checks, and str.split.
Python exceptions are modelled by an explicit error type; the notebook code
is single-threaded and side-effect free apart from in-place mutation of the
schema tree, which the embedding renders by returning the updated tree (and
threading the definitions table, since substituted definitions are shared
between the table and the tree in Python).
-/

/-- A JSON value as produced by json.load: None, booleans, numbers
(integral only; the crash-report schema uses no floats), strings, lists and
dictionaries (insertion-ordered key/value lists, keys unique). -/
inductive Json where
  | null : Json
  | bool : Bool → Json
  | num : Int → Json
  | str : String → Json
  | arr : List Json → Json
  | obj : List (String × Json) → Json

/-- The Python exceptions the translator can raise.  replace_definitions
raises ValueError for a stray reference (refNotFound); get_rows raises
ValueError for a bad schema node (invalidSchema); missing dictionary keys
raise KeyError; in-operator/subscription on unsupported operand types raise
TypeError or AttributeError (both rendered as typeError); the assert in
create_struct raises AssertionError; unbounded recursion is RecursionError,
which also stands for fuel exhaustion of the embedding. -/
inductive Err where
  | keyError : String → Err
  | refNotFound : String → Err
  | invalidSchema : String → Err
  | assertionError : String → Err
  | typeError : Err
  | recursionError : Err
deriving DecidableEq

/-- Does the first character list start the second one (character-wise)? -/
def listStarts : List Char → List Char → Bool
  | [], _ => true
  | _ :: _, [] => false
  | a :: as, b :: bs => (a == b) && listStarts as bs

/-- Is the first character list a contiguous run inside the second one?
This is Python substring containment (needle in haystack) on characters. -/
def listHasSub (n : List Char) : List Char → Bool
  | [] => listStarts n []
  | c :: t => listStarts n (c :: t) || listHasSub n t

/-- Python substring test: n in s for strings. -/
def strHasSub (n s : String) : Bool := listHasSub n.toList s.toList

/-- Is this JSON value the given string?  Python equality j == s where s is
a string compares unequal to every non-string value. -/
def jIsStr (j : Json) (s : String) : Bool :=
  match j with
  | Json.str t => t == s
  | _ => false

mutual
/-- Python str() of a json.load value: dictionaries print as
\x7b'k': v, ...\x7d, lists as [a, b], strings repr with single quotes,
None/True/False for null and booleans.  (Escape sequences inside strings
are not reproduced; the schema documents contain none.) -/
def pyStr : Json → String
  | Json.null => "None"
  | Json.bool true => "True"
  | Json.bool false => "False"
  | Json.num n => toString n
  | Json.str s => "\x27" ++ s ++ "\x27"
  | Json.arr l => "[" ++ pyStrList l ++ "]"
  | Json.obj kvs => "\x7b" ++ pyStrObj kvs ++ "\x7d"

/-- Comma-separated str() of list elements. -/
def pyStrList : List Json → String
  | [] => ""
  | [x] => pyStr x
  | x :: y :: t => pyStr x ++ ", " ++ pyStrList (y :: t)

/-- Comma-separated str() of dictionary items. -/
def pyStrObj : List (String × Json) → String
  | [] => ""
  | [kv] => "\x27" ++ kv.1 ++ "\x27: " ++ pyStr kv.2
  | kv :: kv2 :: t => "\x27" ++ kv.1 ++ "\x27: " ++ pyStr kv.2 ++ ", " ++ pyStrObj (kv2 :: t)
end

/-- Python membership test k in x for a string k: key membership for
dictionaries, element equality for lists, substring containment for
strings, TypeError otherwise. -/
def pyContains (k : String) (j : Json) : Except Err Bool :=
  match j with
  | Json.obj kvs => Except.ok (kvs.any (fun kv => kv.1 == k))
  | Json.arr l => Except.ok (l.any (fun e => jIsStr e k))
  | Json.str s => Except.ok (strHasSub k s)
  | _ => Except.error Err.typeError

/-- Python subscription x[k] for a string key k: dictionary lookup
(KeyError when absent), TypeError on any non-dictionary. -/
def jget (j : Json) (k : String) : Except Err Json :=
  match j with
  | Json.obj kvs =>
      match kvs.find? (fun kv => kv.1 == k) with
      | some kv => Except.ok kv.2
      | none => Except.error (Err.keyError k)
  | _ => Except.error Err.typeError

/-- Assignment into an association list: replace the value at the first
occurrence of the key in place (Python dict assignment keeps the key
position), append when absent. -/
def setAssoc : List (String × Json) → String → Json → List (String × Json)
  | [], k, v => [(k, v)]
  | kv :: rest, k, v =>
      if kv.1 == k then (k, v) :: rest else kv :: setAssoc rest k v

/-- Python dictionary assignment x[k] = v (identity on non-dictionaries;
every use in the code follows a successful membership test or lookup). -/
def jset (j : Json) (k : String) (v : Json) : Json :=
  match j with
  | Json.obj kvs => Json.obj (setAssoc kvs k v)
  | _ => j

/-- The characters after the last slash: reverse, take until a slash,
reverse back. -/
def afterLastSlash (l : List Char) : List Char :=
  (l.reverse.takeWhile (fun c => !(c == '/'))).reverse

/-- Python ref.split('/')[-1]: the last slash-separated segment, i.e. the
characters after the last slash (the whole string when it has none). -/
def lastSegment (s : String) : String := String.mk (afterLastSlash s.toList)

/-- The stray-reference scan used by replace_definitions and by the assert
in create_struct: is the marker "$ref" a substring of str(schema)? -/
def containsRefStr (j : Json) : Bool := listHasSub "$ref".toList (pyStr j).toList

mutual
/-- replace_definitions from the notebook.  Walks the schema: when the node
has a 'properties' key, recurse into each property value; otherwise when it
has an 'items' key, substitute the referenced definition when items carries
a '$ref' (looking the last path segment up in the definitions table) and
recurse; otherwise fail when "$ref" occurs in str(schema).  Python mutates
the tree and shares the substituted definition object between the table and
the items slot, so the embedding returns the rewritten node together with
the updated definitions table.  The fuel argument renders Python recursion;
its exhaustion is RecursionError. -/
def replace_definitions : Nat → Json → Json → Except Err (Json × Json)
  | 0, _, _ => Except.error Err.recursionError
  | Nat.succ f, defs, schema => do
      let hasProps ← pyContains "properties" schema
      if hasProps then do
        let props ← jget schema "properties"
        match props with
        | Json.obj kvs => do
            let r ← rd_props f defs kvs
            Except.ok (jset schema "properties" (Json.obj r.1), r.2)
        | _ => Except.error Err.typeError
      else do
        let hasItems ← pyContains "items" schema
        if hasItems then do
          let items ← jget schema "items"
          let hasRef ← pyContains "$ref" items
          if hasRef then do
            let refv ← jget items "$ref"
            match refv with
            | Json.str s => do
                let d ← jget defs (lastSegment s)
                let r ← replace_definitions f defs d
                Except.ok (jset schema "items" r.1, jset r.2 (lastSegment s) r.1)
            | _ => Except.error Err.typeError
          else do
            let r ← replace_definitions f defs items
            Except.ok (jset schema "items" r.1, r.2)
        else
          if containsRefStr schema then
            Except.error (Err.refNotFound ("Reference not found for schema: " ++ pyStr schema))
          else
            Except.ok (schema, defs)

/-- The properties loop of replace_definitions: rewrite each property value
in order, threading the definitions table. -/
def rd_props : Nat → Json → List (String × Json) → Except Err (List (String × Json) × Json)
  | 0, _, _ => Except.error Err.recursionError
  | Nat.succ _, defs, [] => Except.ok ([], defs)
  | Nat.succ f, defs, kv :: rest => do
      let r ← replace_definitions f defs kv.2
      let rr ← rd_props f r.2 rest
      Except.ok ((kv.1, r.1) :: rr.1, rr.2)
end

mutual
/-- The Spark SQL data types the notebook builds: StringType, IntegerType,
BooleanType, ArrayType(elementType, containsNull) and StructType(fields). -/
inductive DataType where
  | string : DataType
  | integer : DataType
  | boolean : DataType
  | array : DataType → Bool → DataType
  | struct : List StructField → DataType

/-- Spark StructField(name, dataType, nullable). -/
inductive StructField where
  | mk : String → DataType → Bool → StructField
end

/-- Field name of a StructField. -/
def StructField.name : StructField → String
  | StructField.mk n _ _ => n

/-- Data type of a StructField. -/
def StructField.dtype : StructField → DataType
  | StructField.mk _ d _ => d

/-- Nullability flag of a StructField. -/
def StructField.nullable : StructField → Bool
  | StructField.mk _ _ b => b

/-- Python string comparison a <= b on character lists: lexicographic by
code point. -/
def lexLe : List Char → List Char → Bool
  | [], _ => true
  | _ :: _, [] => false
  | a :: as, b :: bs =>
      if a.toNat < b.toNat then true
      else if b.toNat < a.toNat then false
      else lexLe as bs

/-- Python string comparison a <= b. -/
def strLeb (a b : String) : Bool := lexLe a.toList b.toList

/-- Stable insertion into a sorted list, realizing Python sorted(). -/
def insertKey (x : String) : List String → List String
  | [] => [x]
  | y :: ys => if strLeb x y then x :: y :: ys else y :: insertKey x ys

/-- Python sorted() on a list of strings: ascending, stable. -/
def sortKeys : List String → List String
  | [] => []
  | x :: xs => insertKey x (sortKeys xs)

/-- Python sorted(schema['properties']): iterating a dictionary yields its
keys, sorted ascending.  Iterating an empty list or empty string also
yields nothing; every other non-dictionary value makes the loop body fail
on its first step (sorted() on uncomparable elements, subscription with a
non-integer, or an out-of-range index), modelled coarsely as typeError. -/
def sortedKeys : Json → Except Err (List String)
  | Json.obj kvs => Except.ok (sortKeys (kvs.map (fun kv => kv.1)))
  | Json.arr [] => Except.ok []
  | Json.str "" => Except.ok []
  | _ => Except.error Err.typeError

/-- Python str(meta)[:100]: the first hundred characters. -/
def strTake (s : String) (n : Nat) : String := String.mk (s.toList.take n)

mutual
/-- get_rows from the notebook: fail with "properties field is missing"
when the node has no 'properties', otherwise build one StructField per
property, taking property names in sorted order. -/
def get_rows : Nat → Json → Except Err (List StructField)
  | 0, _ => Except.error Err.recursionError
  | Nat.succ f, schema => do
      let hasProps ← pyContains "properties" schema
      if hasProps then do
        let props ← jget schema "properties"
        let keys ← sortedKeys props
        rows_loop f props keys
      else
        Except.error (Err.invalidSchema "Invalid JSON schema: properties field is missing.")

/-- The property loop of get_rows, in sorted key order.  The notebook
builds a StructType by adding the yielded fields one by one; the embedding
collects them into a list. -/
def rows_loop : Nat → Json → List String → Except Err (List StructField)
  | 0, _, _ => Except.error Err.recursionError
  | Nat.succ _, _, [] => Except.ok []
  | Nat.succ f, props, p :: ps => do
      let meta ← jget props p
      let fld ← field_of f p meta
      let rest ← rows_loop f props ps
      Except.ok (fld :: rest)

/-- The branch ladder inside get_rows for a single property: 'string' in
meta['type'] wins first (String), then 'integer' (Integer), then 'boolean'
(Boolean), with nullable = 'null' in meta['type']; then
meta['type'] == 'array' without items (ArrayType(StringType(), False),
nullable True), with items (ArrayType(StructType(...)), nullable True),
then meta['type'] == 'object' (StructType(...), nullable True); anything
else raises ValueError with the fragment truncated to 100 characters. -/
def field_of : Nat → String → Json → Except Err StructField
  | 0, _, _ => Except.error Err.recursionError
  | Nat.succ f, prop, meta => do
      let t ← jget meta "type"
      let hasStr ← pyContains "string" t
      if hasStr then do
        let hasNull ← pyContains "null" t
        Except.ok (StructField.mk prop DataType.string hasNull)
      else do
        let hasInt ← pyContains "integer" t
        if hasInt then do
          let hasNull ← pyContains "null" t
          Except.ok (StructField.mk prop DataType.integer hasNull)
        else do
          let hasBool ← pyContains "boolean" t
          if hasBool then do
            let hasNull ← pyContains "null" t
            Except.ok (StructField.mk prop DataType.boolean hasNull)
          else do
            let hasItems ← pyContains "items" meta
            if jIsStr t "array" && !hasItems then
              Except.ok (StructField.mk prop (DataType.array DataType.string false) true)
            else if jIsStr t "array" && hasItems then do
              let items ← jget meta "items"
              let rows ← get_rows f items
              Except.ok (StructField.mk prop (DataType.array (DataType.struct rows) true) true)
            else if jIsStr t "object" then do
              let rows ← get_rows f meta
              Except.ok (StructField.mk prop (DataType.struct rows) true)
            else
              Except.error (Err.invalidSchema ("Invalid JSON schema: " ++ strTake (pyStr meta) 100))
end

/-- The resolution phase of create_struct: look up schema['definitions'],
run replace_definitions on the whole document, and return the rewritten
document.  In Python the definitions table is the same object as
schema['definitions'] and is mutated in place, so the rewritten document
carries the updated table. -/
def resolved_tree (fuel : Nat) (schema : Json) : Except Err Json := do
  let defs ← jget schema "definitions"
  let r ← replace_definitions fuel defs schema
  Except.ok (jset r.1 "definitions" r.2)

/-- create_struct from the notebook: resolve references, assert that no
"$ref" marker remains in str(schema), then build the root StructType from
get_rows. -/
def create_struct (fuel : Nat) (schema : Json) : Except Err DataType := do
  let resolved ← resolved_tree fuel schema
  if containsRefStr resolved then
    Except.error (Err.assertionError "re-write didnt work")
  else do
    let rows ← get_rows fuel resolved
    Except.ok (DataType.struct rows)

/-- The end-to-end scenario document of the spec. -/
def docEndToEnd : Json := Json.obj [
  ("definitions", Json.obj [("X", Json.obj [("properties",
      Json.obj [("z", Json.obj [("type", Json.str "string")])])])]),
  ("properties", Json.obj [("y", Json.obj [("type", Json.str "array"),
      ("items", Json.obj [("$ref", Json.str "#/definitions/X")])])])]

/-- A document whose only reference marker sits under a top-level key the
resolver never walks. -/
def docStrayRef : Json := Json.obj [
  ("definitions", Json.obj []),
  ("properties", Json.obj []),
  ("x", Json.obj [("$ref", Json.str "#/definitions/X")])]

/-- A document with a single property of plain type array and no items. -/
def docBareArray : Json := Json.obj [
  ("definitions", Json.obj []),
  ("properties", Json.obj [("a", Json.obj [("type", Json.str "array")])])]

/-- A document with a missing-target reference in an items position that
the resolver walk never reaches. -/
def docUnreachedMissing : Json := Json.obj [
  ("definitions", Json.obj []),
  ("properties", Json.obj []),
  ("blah", Json.obj [("items", Json.obj [("$ref", Json.str "#/definitions/missing")])])]

/-- A document with a single property of unrecognized type fakestring. -/
def docFakeString : Json := Json.obj [
  ("definitions", Json.obj []),
  ("properties", Json.obj [("a", Json.obj [("type", Json.str "fakestring")])])]

/-- A document whose definition X exists while a bare reference to it sits
in a properties map the resolver walk never reaches. -/
def docUnreachedBareRef : Json := Json.obj [
  ("definitions", Json.obj [("X", Json.obj [("properties",
      Json.obj [("z", Json.obj [("type", Json.str "string")])])])]),
  ("properties", Json.obj []),
  ("junk", Json.obj [("properties",
      Json.obj [("a", Json.obj [("$ref", Json.str "#/definitions/X")])])])]

/-- The property metadata with type ["string", "null"]. -/
def metaStringNull : Json :=
  Json.obj [("type", Json.arr [Json.str "string", Json.str "null"])]

/-- The property metadata with type ["string", "integer"]. -/
def metaStringInteger : Json :=
  Json.obj [("type", Json.arr [Json.str "string", Json.str "integer"])]

/-- The property metadata with type "null_pointer_fantasy". -/
def metaFantasy : Json := Json.obj [("type", Json.str "null_pointer_fantasy")]

/-- Is this Spark type one of the primitive kinds String/Integer/Boolean? -/
def isPrimitive : DataType → Bool
  | DataType.string => true
  | DataType.integer => true
  | DataType.boolean => true
  | _ => false

/-- The items sub-schema referencing the absent definition missing. -/
def missingRefMeta : Json :=
  Json.obj [("items", Json.obj [("$ref", Json.str "#/definitions/missing")])]

/-- A bare reference sub-schema with no properties or items key of its
own. -/
def bareRefMeta : Json := Json.obj [("$ref", Json.str "#/definitions/X")]

/-- All Struct and ArrayOfStruct nodes of a Spark type have their children
in ascending (non-decreasing) order of field name — the Python string
order — recursively. -/
inductive DTSorted : DataType → Prop where
  | string : DTSorted DataType.string
  | integer : DTSorted DataType.integer
  | boolean : DTSorted DataType.boolean
  | array : ∀ (d : DataType) (b : Bool), DTSorted d → DTSorted (DataType.array d b)
  | struct : ∀ (fs : List StructField),
      List.Chain' (fun a b => strLeb a b = true) (fs.map StructField.name) →
      (∀ fl, fl ∈ fs → DTSorted fl.dtype) →
      DTSorted (DataType.struct fs)

/-! ## Theorems: helper lemmas and the claims -/

/-- Inversion of a successful bind: the first stage succeeded and the
continuation succeeded on its result. -/
theorem bind_ok {α β : Type} {x : Except Err α} {g : α → Except Err β} {b : β}
    (h : x >>= g = Except.ok b) : ∃ a, x = Except.ok a ∧ g a = Except.ok b := by
  cases x with
  | error e => exact absurd h (by simp [Bind.bind, Except.bind])
  | ok a => exact ⟨a, rfl, by simpa [Bind.bind, Except.bind] using h⟩

/-- Computation rule: binding a success applies the continuation. -/
theorem ok_bind {α β : Type} (a : α) (g : α → Except Err β) :
    (Except.ok a >>= g) = g a := rfl

/-- Computation rule: binding an error propagates it. -/
theorem error_bind {α β : Type} (e : Err) (g : α → Except Err β) :
    ((Except.error e : Except Err α) >>= g) = Except.error e := rfl

/-- C1: translating the end-to-end document yields a root Struct with the
single child y of kind ArrayOfStruct wrapping a Struct with the single
child z of kind String, nullable false. -/
theorem c1_end_to_end :
    create_struct 20 docEndToEnd = Except.ok (DataType.struct
      [StructField.mk "y"
        (DataType.array (DataType.struct [StructField.mk "z" DataType.string false]) true)
        true]) := by
  rfl

/-- C2 counterexample: docStrayRef contains a reference marker, the
resolver accepts it unchanged (the marker sits under a key the walk never
visits, so the resolved tree still serializes with a "$ref"), and
translation fails with the assert's AssertionError rather than leaving
zero markers or raising the unresolved-reference ValueError. -/
theorem c2_cex :
    containsRefStr docStrayRef = true ∧
    resolved_tree 20 docStrayRef = Except.ok docStrayRef ∧
    create_struct 20 docStrayRef = Except.error (Err.assertionError "re-write didnt work") ∧
    (∀ m, create_struct 20 docStrayRef ≠ Except.error (Err.refNotFound m)) ∧
    (∀ m, create_struct 20 docStrayRef ≠ Except.error (Err.keyError m)) := by
  refine ⟨rfl, rfl, rfl, ?_, ?_⟩ <;> intro m h <;>
    rw [show create_struct 20 docStrayRef
        = Except.error (Err.assertionError "re-write didnt work") from rfl] at h <;>
    simp at h

/-- C2 amended: whenever reference resolution accepts a document, either
the resolved tree is free of reference markers in its serialized form, or
create_struct fails with the caller's internal-consistency AssertionError
(the marker survived in a position the walk never visits); an unresolvable
reference the walk does meet still surfaces as the unresolved-reference
error, which propagates before this point. -/
theorem c2_resolution_completeness (f : Nat) (D r : Json)
    (h : resolved_tree f D = Except.ok r) :
    containsRefStr r = false ∨
    create_struct f D = Except.error (Err.assertionError "re-write didnt work") := by
  cases hc : containsRefStr r with
  | false => exact Or.inl rfl
  | true =>
    refine Or.inr ?_
    simp only [create_struct, h, ok_bind, hc, if_true]

/-- C2 amended witness: instantiated at docStrayRef, whose resolution is
the identity. -/
theorem c2_resolution_completeness_witness :
    containsRefStr docStrayRef = false ∨
    create_struct 20 docStrayRef = Except.error (Err.assertionError "re-write didnt work") :=
  c2_resolution_completeness 20 docStrayRef docStrayRef rfl

/-- C7: translation is deterministic; two runs of create_struct on the same
document yield structurally identical output (the embedding is a pure
function of the document: property iteration is over sorted keys, so no
hash-map iteration order is involved). -/
theorem c7_deterministic (f : Nat) (D : Json) (t1 t2 : DataType)
    (h1 : create_struct f D = Except.ok t1) (h2 : create_struct f D = Except.ok t2) :
    t1 = t2 := by
  rw [h1] at h2
  injection h2

/-- C7 witness at the end-to-end document. -/
theorem c7_deterministic_witness :
    DataType.struct [StructField.mk "y"
      (DataType.array (DataType.struct [StructField.mk "z" DataType.string false]) true) true]
    = DataType.struct [StructField.mk "y"
      (DataType.array (DataType.struct [StructField.mk "z" DataType.string false]) true) true] :=
  c7_deterministic 20 docEndToEnd _ _ rfl rfl

/-- C8: a schema node (dictionary) without a properties key makes get_rows
— the field generator invoked at the root and at every Struct/ArrayOfStruct
recursion — fail with the ValueError whose text is "Invalid JSON schema:
properties field is missing."; the claimed message is contained in that
text. -/
theorem c8_missing_properties (f : Nat) (kvs : List (String × Json))
    (h : kvs.any (fun kv => kv.1 == "properties") = false) :
    get_rows (Nat.succ f) (Json.obj kvs)
      = Except.error (Err.invalidSchema "Invalid JSON schema: properties field is missing.") ∧
    strHasSub "properties field is missing"
      "Invalid JSON schema: properties field is missing." = true := by
  constructor
  · simp only [get_rows, pyContains, ok_bind, h, Bool.false_eq_true, if_false]
  · rfl

/-- C8 witness: a node carrying only a type key. -/
theorem c8_missing_properties_witness :
    get_rows 1 (Json.obj [("type", Json.str "object")])
      = Except.error (Err.invalidSchema "Invalid JSON schema: properties field is missing.") ∧
    strHasSub "properties field is missing"
      "Invalid JSON schema: properties field is missing." = true :=
  c8_missing_properties 0 [("type", Json.str "object")] rfl

/-- C9: when a property's type is a list containing both "string" and
"integer", get_rows classifies it as String (string wins), with nullable
given by the "null" membership test; no Integer node and no error. -/
theorem c9_string_priority (f : Nat) (p : String) (meta : Json) (l : List Json)
    (ht : jget meta "type" = Except.ok (Json.arr l))
    (hs : l.any (fun e => jIsStr e "string") = true)
    (_hi : l.any (fun e => jIsStr e "integer") = true) :
    field_of (Nat.succ f) p meta
      = Except.ok (StructField.mk p DataType.string (l.any (fun e => jIsStr e "null"))) := by
  simp only [field_of, ht, ok_bind, pyContains, hs, if_true]

/-- C9 witness at type ["string", "integer"]. -/
theorem c9_string_priority_witness :
    field_of 1 "a" metaStringInteger = Except.ok (StructField.mk "a" DataType.string false) :=
  c9_string_priority 0 "a" metaStringInteger
    [Json.str "string", Json.str "integer"] rfl rfl rfl

/-- A successful lookup proves the value was a dictionary. -/
theorem jget_ok_obj {j : Json} {k : String} {v : Json} (h : jget j k = Except.ok v) :
    ∃ kvs, j = Json.obj kvs := by
  cases j <;> first | exact ⟨_, rfl⟩ | simp [jget] at h

/-- C4 amended: for every field get_rows emits, nullable equals the result
of the Python test 'null' in meta['type'] when the field kind is primitive
(String/Integer/Boolean), and is constantly true for ArrayOfString,
ArrayOfStruct and Struct fields regardless of the type value. -/
theorem c4_nullable_rule (f : Nat) (p : String) (meta : Json) (fld : StructField)
    (h : field_of f p meta = Except.ok fld) :
    (isPrimitive fld.dtype = true →
      ∃ t, jget meta "type" = Except.ok t ∧ pyContains "null" t = Except.ok fld.nullable) ∧
    (isPrimitive fld.dtype = false → fld.nullable = true) := by
  cases f with
  | zero => exact absurd h (by simp [field_of])
  | succ f =>
    simp only [field_of] at h
    obtain ⟨t, ht, h⟩ := bind_ok h
    obtain ⟨bs, hbs, h⟩ := bind_ok h
    cases bs with
    | true =>
      rw [if_pos rfl] at h
      obtain ⟨b, hb, h⟩ := bind_ok h
      injection h with h
      subst h
      exact ⟨fun _ => ⟨t, ht, hb⟩, fun hf => absurd hf (by simp [StructField.dtype, isPrimitive])⟩
    | false =>
      rw [if_neg (by simp)] at h
      obtain ⟨bi, hbi, h⟩ := bind_ok h
      cases bi with
      | true =>
        rw [if_pos rfl] at h
        obtain ⟨b, hb, h⟩ := bind_ok h
        injection h with h
        subst h
        exact ⟨fun _ => ⟨t, ht, hb⟩, fun hf => absurd hf (by simp [StructField.dtype, isPrimitive])⟩
      | false =>
        rw [if_neg (by simp)] at h
        obtain ⟨bb, hbb, h⟩ := bind_ok h
        cases bb with
        | true =>
          rw [if_pos rfl] at h
          obtain ⟨b, hb, h⟩ := bind_ok h
          injection h with h
          subst h
          exact ⟨fun _ => ⟨t, ht, hb⟩, fun hf => absurd hf (by simp [StructField.dtype, isPrimitive])⟩
        | false =>
          rw [if_neg (by simp)] at h
          obtain ⟨bitems, hbitems, h⟩ := bind_ok h
          by_cases hcond : (jIsStr t "array" && !bitems) = true
          · rw [if_pos hcond] at h
            injection h with h
            subst h
            refine ⟨fun hp => absurd hp (by simp [StructField.dtype, isPrimitive]), fun _ => rfl⟩
          · rw [if_neg (by simpa using hcond)] at h
            by_cases hcond2 : (jIsStr t "array" && bitems) = true
            · rw [if_pos hcond2] at h
              obtain ⟨items, hit, h⟩ := bind_ok h
              obtain ⟨rows, hrows, h⟩ := bind_ok h
              injection h with h
              subst h
              refine ⟨fun hp => absurd hp (by simp [StructField.dtype, isPrimitive]), fun _ => rfl⟩
            · rw [if_neg (by simpa using hcond2)] at h
              by_cases hcond3 : jIsStr t "object" = true
              · rw [if_pos hcond3] at h
                obtain ⟨rows, hrows, h⟩ := bind_ok h
                injection h with h
                subst h
                refine ⟨fun hp => absurd hp (by simp [StructField.dtype, isPrimitive]), fun _ => rfl⟩
              · rw [if_neg (by simpa using hcond3)] at h
                exact absurd h (by simp)

/-- C4 amended witness at type ["string", "null"]. -/
theorem c4_nullable_rule_witness :
    (isPrimitive (StructField.mk "s" DataType.string true).dtype = true →
      ∃ t, jget metaStringNull "type" = Except.ok t ∧
        pyContains "null" t = Except.ok (StructField.mk "s" DataType.string true).nullable) ∧
    (isPrimitive (StructField.mk "s" DataType.string true).dtype = false →
      (StructField.mk "s" DataType.string true).nullable = true) :=
  c4_nullable_rule 1 "s" metaStringNull (StructField.mk "s" DataType.string true) rfl

/-- C4 counterexample: in docBareArray the single property a has the plain
string "array" as its type value — not a set containing "null" — yet the
emitted ArrayOfString field has nullable = true, refuting the claimed
equivalence. -/
theorem c4_cex :
    create_struct 20 docBareArray = Except.ok (DataType.struct
      [StructField.mk "a" (DataType.array DataType.string false) true]) ∧
    jget docBareArray "properties"
      = Except.ok (Json.obj [("a", Json.obj [("type", Json.str "array")])]) ∧
    jget (Json.obj [("type", Json.str "array")]) "type" = Except.ok (Json.str "array") ∧
    (∀ l, Json.str "array" ≠ Json.arr l) := by
  refine ⟨rfl, rfl, rfl, ?_⟩
  intro l h
  exact Json.noConfusion h

/-- C6 amended: a property whose type value fails all three Python
membership tests ('string'/'integer'/'boolean' in meta['type']) and is
neither exactly the string "array" nor "object" makes get_rows fail with
the ValueError "Invalid JSON schema: " followed by str(meta) truncated to
its first 100 characters. -/
theorem c6_unrecognized_type (f : Nat) (p : String) (meta t : Json)
    (ht : jget meta "type" = Except.ok t)
    (hs : pyContains "string" t = Except.ok false)
    (hi : pyContains "integer" t = Except.ok false)
    (hb : pyContains "boolean" t = Except.ok false)
    (ha : jIsStr t "array" = false)
    (ho : jIsStr t "object" = false) :
    field_of (Nat.succ f) p meta
      = Except.error (Err.invalidSchema ("Invalid JSON schema: " ++ strTake (pyStr meta) 100)) ∧
    (strTake (pyStr meta) 100).length ≤ 100 := by
  constructor
  · obtain ⟨kvs, hk⟩ := jget_ok_obj ht
    subst hk
    simp only [field_of, ht, ok_bind, hs, hi, hb, Bool.false_eq_true, if_false]
    simp only [pyContains, ok_bind, ha, ho, Bool.false_and, Bool.false_eq_true, if_false]
  · show ((pyStr meta).toList.take 100).length ≤ 100
    exact List.length_take_le 100 _

/-- C6 amended witness at type "null_pointer_fantasy" (the claim's
particular case). -/
theorem c6_unrecognized_type_witness :
    field_of 1 "a" metaFantasy
      = Except.error (Err.invalidSchema ("Invalid JSON schema: " ++ strTake (pyStr metaFantasy) 100)) ∧
    (strTake (pyStr metaFantasy) 100).length ≤ 100 :=
  c6_unrecognized_type 0 "a" metaFantasy (Json.str "null_pointer_fantasy")
    rfl rfl rfl rfl rfl rfl

/-- C6 counterexample: "fakestring" lies outside the recognized set
\x7bstring, integer, boolean, array, object\x7d and is no nullable union,
yet translation of docFakeString succeeds (the membership test
'string' in meta['type'] is a substring test on string-valued types), so
no InvalidSchemaError is raised. -/
theorem c6_cex :
    ("fakestring" ≠ "string" ∧ "fakestring" ≠ "integer" ∧ "fakestring" ≠ "boolean" ∧
     "fakestring" ≠ "array" ∧ "fakestring" ≠ "object") ∧
    create_struct 20 docFakeString
      = Except.ok (DataType.struct [StructField.mk "a" DataType.string false]) :=
  ⟨by decide, rfl⟩

/-- C5 amended: when the resolver walk reaches an items-position reference
#/definitions/missing and the definitions table (any table) has no key
missing, translation fails with Python's KeyError naming missing — the
error the spec classifies as UnresolvedReferenceError.  Universal in the
table, the property name and the fuel. -/
theorem c5_missing_definition (f : Nat) (dl : List (String × Json)) (p : String)
    (h : dl.find? (fun kv => kv.1 == "missing") = none) :
    create_struct (Nat.succ (Nat.succ (Nat.succ f)))
      (Json.obj [("definitions", Json.obj dl),
                 ("properties", Json.obj [(p, missingRefMeta)])])
      = Except.error (Err.keyError "missing") := by
  have step1 : replace_definitions (Nat.succ f) (Json.obj dl) missingRefMeta
      = Except.error (Err.keyError "missing") := by
    have e1 : pyContains "properties" missingRefMeta = Except.ok false := rfl
    have e2 : pyContains "items" missingRefMeta = Except.ok true := rfl
    have e3 : jget missingRefMeta "items"
        = Except.ok (Json.obj [("$ref", Json.str "#/definitions/missing")]) := rfl
    have e4 : pyContains "$ref" (Json.obj [("$ref", Json.str "#/definitions/missing")])
        = Except.ok true := rfl
    have e5 : jget (Json.obj [("$ref", Json.str "#/definitions/missing")]) "$ref"
        = Except.ok (Json.str "#/definitions/missing") := rfl
    have hls : lastSegment "#/definitions/missing" = "missing" := rfl
    simp only [replace_definitions, e1, e2, e3, e4, e5, hls, ok_bind,
      Bool.false_eq_true, if_false, if_true]
    simp only [jget, h, error_bind]
  have step2 : rd_props (Nat.succ (Nat.succ f)) (Json.obj dl) [(p, missingRefMeta)]
      = Except.error (Err.keyError "missing") := by
    simp only [rd_props, step1, error_bind]
  set doc := Json.obj [("definitions", Json.obj dl),
                       ("properties", Json.obj [(p, missingRefMeta)])] with hdoc
  have step3 : replace_definitions (Nat.succ (Nat.succ (Nat.succ f))) (Json.obj dl) doc
      = Except.error (Err.keyError "missing") := by
    have e1 : pyContains "properties" doc = Except.ok true := rfl
    have e2 : jget doc "properties" = Except.ok (Json.obj [(p, missingRefMeta)]) := rfl
    simp only [replace_definitions, e1, e2, ok_bind, if_true, step2, error_bind]
  have e3 : jget doc "definitions" = Except.ok (Json.obj dl) := rfl
  simp only [create_struct, resolved_tree, e3, ok_bind, step3, error_bind]

/-- C5 amended witness: the empty definitions table. -/
theorem c5_missing_definition_witness :
    create_struct (Nat.succ (Nat.succ (Nat.succ 0)))
      (Json.obj [("definitions", Json.obj []),
                 ("properties", Json.obj [("a", missingRefMeta)])])
      = Except.error (Err.keyError "missing") :=
  c5_missing_definition 0 [] "a" rfl

/-- C5 counterexample: docUnreachedMissing carries a
\x7b"$ref": "#/definitions/missing"\x7d in an items position, missing is
absent from the definitions table, yet translation fails with the assert's
AssertionError — not with an error naming the missing key — because the
resolver's walk never reaches that items position. -/
theorem c5_cex :
    create_struct 20 docUnreachedMissing
      = Except.error (Err.assertionError "re-write didnt work") ∧
    (∀ m, create_struct 20 docUnreachedMissing ≠ Except.error (Err.keyError m)) ∧
    (∀ m, create_struct 20 docUnreachedMissing ≠ Except.error (Err.refNotFound m)) := by
  refine ⟨rfl, ?_, ?_⟩ <;> intro m h <;>
    rw [show create_struct 20 docUnreachedMissing
        = Except.error (Err.assertionError "re-write didnt work") from rfl] at h <;>
    simp at h

/-- C10 amended: a bare reference sub-schema directly under a properties
map reached by the resolver walk (here, the root's) makes translation fail
with the unresolved-reference ValueError — naming the bare-reference
fragment — for every definitions table, including any in which the
referenced definition X exists, and for every property name.  The
substitution step only fires for references in items positions. -/
theorem c10_bare_ref_under_properties (f : Nat) (d : Json) (p : String) :
    create_struct (Nat.succ (Nat.succ (Nat.succ f)))
      (Json.obj [("definitions", d), ("properties", Json.obj [(p, bareRefMeta)])])
      = Except.error (Err.refNotFound
          "Reference not found for schema: \x7b\x27$ref\x27: \x27#/definitions/X\x27\x7d") := by
  have step1 : replace_definitions (Nat.succ f) d bareRefMeta
      = Except.error (Err.refNotFound
          "Reference not found for schema: \x7b\x27$ref\x27: \x27#/definitions/X\x27\x7d") := by
    have e1 : pyContains "properties" bareRefMeta = Except.ok false := rfl
    have e2 : pyContains "items" bareRefMeta = Except.ok false := rfl
    have e3 : containsRefStr bareRefMeta = true := rfl
    have e4 : pyStr bareRefMeta = "\x7b\x27$ref\x27: \x27#/definitions/X\x27\x7d" := rfl
    simp only [replace_definitions, e1, e2, e3, e4, ok_bind,
      Bool.false_eq_true, if_false, if_true]
    rfl
  have step2 : rd_props (Nat.succ (Nat.succ f)) d [(p, bareRefMeta)]
      = Except.error (Err.refNotFound
          "Reference not found for schema: \x7b\x27$ref\x27: \x27#/definitions/X\x27\x7d") := by
    simp only [rd_props, step1, error_bind]
  set doc := Json.obj [("definitions", d), ("properties", Json.obj [(p, bareRefMeta)])] with hdoc
  have step3 : replace_definitions (Nat.succ (Nat.succ (Nat.succ f))) d doc
      = Except.error (Err.refNotFound
          "Reference not found for schema: \x7b\x27$ref\x27: \x27#/definitions/X\x27\x7d") := by
    have e1 : pyContains "properties" doc = Except.ok true := rfl
    have e2 : jget doc "properties" = Except.ok (Json.obj [(p, bareRefMeta)]) := rfl
    simp only [replace_definitions, e1, e2, ok_bind, if_true, step2, error_bind]
  have e3 : jget doc "definitions" = Except.ok d := rfl
  simp only [create_struct, resolved_tree, e3, ok_bind, step3, error_bind]

/-- C10 amended witness: the definitions table in which X exists. -/
theorem c10_bare_ref_under_properties_witness :
    create_struct (Nat.succ (Nat.succ (Nat.succ 0)))
      (Json.obj [("definitions", Json.obj [("X", Json.obj [("properties",
          Json.obj [("z", Json.obj [("type", Json.str "string")])])])]),
        ("properties", Json.obj [("a", bareRefMeta)])])
      = Except.error (Err.refNotFound
          "Reference not found for schema: \x7b\x27$ref\x27: \x27#/definitions/X\x27\x7d") := by
  exact c10_bare_ref_under_properties 0 (Json.obj [("X", Json.obj [("properties",
      Json.obj [("z", Json.obj [("type", Json.str "string")])])])]) "a"

/-- C10 counterexample: docUnreachedBareRef has a bare reference to the
existing definition X directly under a properties map, but that map hangs
off a key the resolver walk never visits, so translation fails with the
assert's AssertionError instead of the unresolved-reference ValueError. -/
theorem c10_cex :
    create_struct 20 docUnreachedBareRef
      = Except.error (Err.assertionError "re-write didnt work") ∧
    (∀ m, create_struct 20 docUnreachedBareRef ≠ Except.error (Err.refNotFound m)) := by
  refine ⟨rfl, ?_⟩
  intro m h
  rw [show create_struct 20 docUnreachedBareRef
      = Except.error (Err.assertionError "re-write didnt work") from rfl] at h
  simp at h

/-- Totality of the code-point comparison on character lists. -/
theorem lexLe_total (a : List Char) : ∀ b, lexLe a b = true ∨ lexLe b a = true := by
  induction a with
  | nil => intro b; exact Or.inl rfl
  | cons x xs ih =>
    intro b
    cases b with
    | nil => exact Or.inr rfl
    | cons y ys =>
      simp only [lexLe]
      rcases Nat.lt_trichotomy x.toNat y.toNat with hlt | heq | hgt
      · exact Or.inl (by simp [hlt])
      · have h1 : ¬ x.toNat < y.toNat := by omega
        have h2 : ¬ y.toNat < x.toNat := by omega
        simpa [h1, h2] using ih ys
      · exact Or.inr (by simp [hgt])

/-- Totality of the Python string comparison. -/
theorem strLeb_total (a b : String) : strLeb a b = true ∨ strLeb b a = true :=
  lexLe_total a.toList b.toList

/-- The head of an insertion is the inserted key or the old head. -/
theorem insertKey_head (x z : String) (l : List String)
    (h : (insertKey x l).head? = some z) : z = x ∨ l.head? = some z := by
  cases l with
  | nil =>
    simp only [insertKey, List.head?] at h
    exact Or.inl (Option.some.inj h).symm
  | cons y ys =>
    simp only [insertKey] at h
    by_cases hxy : strLeb x y = true
    · rw [if_pos hxy] at h
      exact Or.inl (Option.some.inj h).symm
    · rw [if_neg hxy] at h
      exact Or.inr h

/-- Insertion preserves an ascending chain. -/
theorem chain_insertKey (x : String) (l : List String)
    (h : List.Chain' (fun a b => strLeb a b = true) l) :
    List.Chain' (fun a b => strLeb a b = true) (insertKey x l) := by
  induction l with
  | nil => simp [insertKey]
  | cons y ys ih =>
    simp only [insertKey]
    by_cases hxy : strLeb x y = true
    · rw [if_pos hxy]
      exact (List.chain'_cons).mpr ⟨hxy, h⟩
    · rw [if_neg hxy]
      obtain ⟨hhead, htail⟩ := List.chain'_cons'.mp h
      refine List.chain'_cons'.mpr ⟨?_, ih htail⟩
      intro z hz
      rcases insertKey_head x z ys hz with heq | hz2
      · rw [heq]
        rcases strLeb_total x y with h1 | h1
        · exact absurd h1 hxy
        · exact h1
      · exact hhead z hz2

/-- sortKeys produces an ascending chain. -/
theorem chain_sortKeys (l : List String) :
    List.Chain' (fun a b => strLeb a b = true) (sortKeys l) := by
  induction l with
  | nil => simp [sortKeys]
  | cons x xs ih => exact chain_insertKey x (sortKeys xs) ih

/-- Whatever key list the Python iteration produces is ascending. -/
theorem sortedKeys_chain (j : Json) (keys : List String)
    (h : sortedKeys j = Except.ok keys) :
    List.Chain' (fun a b => strLeb a b = true) keys := by
  cases j with
  | obj kvs =>
    simp only [sortedKeys] at h
    injection h with h
    exact h ▸ chain_sortKeys _
  | arr l =>
    cases l with
    | nil =>
      simp only [sortedKeys] at h
      injection h with h
      simp [← h]
    | cons a t => simp [sortedKeys] at h
  | str s =>
    by_cases hs : s = ""
    · subst hs
      simp only [sortedKeys] at h
      injection h with h
      simp [← h]
    · simp [sortedKeys, hs] at h
  | null => simp [sortedKeys] at h
  | bool b => simp [sortedKeys] at h
  | num n => simp [sortedKeys] at h

/-- Joint induction on fuel: every successful get_rows result has its field
names in ascending order with recursively sorted types; the loop emits one
field per key, named after it; every successful field has the name of its
property and a recursively sorted type. -/
theorem rows_sorted_aux : ∀ f : Nat,
    (∀ s rows, get_rows f s = Except.ok rows →
      List.Chain' (fun a b => strLeb a b = true) (rows.map StructField.name) ∧
      ∀ fl ∈ rows, DTSorted fl.dtype) ∧
    (∀ props keys rows, rows_loop f props keys = Except.ok rows →
      rows.map StructField.name = keys ∧ ∀ fl ∈ rows, DTSorted fl.dtype) ∧
    (∀ p m fl, field_of f p m = Except.ok fl → fl.name = p ∧ DTSorted fl.dtype) := by
  intro f
  induction f with
  | zero =>
    refine ⟨?_, ?_, ?_⟩
    · intro s rows h; exact absurd h (by simp [get_rows])
    · intro props keys rows h; exact absurd h (by simp [rows_loop])
    · intro p m fl h; exact absurd h (by simp [field_of])
  | succ f ih =>
    obtain ⟨ihg, ihl, ihf⟩ := ih
    refine ⟨?_, ?_, ?_⟩
    · -- get_rows
      intro s rows h
      simp only [get_rows] at h
      obtain ⟨hp, hhp, h⟩ := bind_ok h
      cases hp with
      | false => rw [if_neg (by simp)] at h; exact absurd h (by simp)
      | true =>
        rw [if_pos rfl] at h
        obtain ⟨props, hprops, h⟩ := bind_ok h
        obtain ⟨keys, hkeys, h⟩ := bind_ok h
        obtain ⟨hnames, hsorted⟩ := ihl props keys rows h
        exact ⟨hnames ▸ sortedKeys_chain props keys hkeys, hsorted⟩
    · -- rows_loop
      intro props keys rows h
      cases keys with
      | nil =>
        simp only [rows_loop] at h
        injection h with h
        subst h
        exact ⟨rfl, by intro fl hfl; cases hfl⟩
      | cons p ps =>
        simp only [rows_loop] at h
        obtain ⟨meta, hmeta, h⟩ := bind_ok h
        obtain ⟨fld, hfld, h⟩ := bind_ok h
        obtain ⟨rest, hrest, h⟩ := bind_ok h
        injection h with h
        subst h
        obtain ⟨hname, hsort⟩ := ihf p meta fld hfld
        obtain ⟨hnames, hall⟩ := ihl props ps rest hrest
        constructor
        · simp only [List.map_cons, hname, hnames]
        · intro fl hfl
          rcases List.mem_cons.mp hfl with heq | hmem
          · exact heq ▸ hsort
          · exact hall fl hmem
    · -- field_of
      intro p m fl h
      simp only [field_of] at h
      obtain ⟨t, ht, h⟩ := bind_ok h
      obtain ⟨bs, hbs, h⟩ := bind_ok h
      cases bs with
      | true =>
        rw [if_pos rfl] at h
        obtain ⟨b, hb, h⟩ := bind_ok h
        injection h with h
        subst h
        exact ⟨rfl, DTSorted.string⟩
      | false =>
        rw [if_neg (by simp)] at h
        obtain ⟨bi, hbi, h⟩ := bind_ok h
        cases bi with
        | true =>
          rw [if_pos rfl] at h
          obtain ⟨b, hb, h⟩ := bind_ok h
          injection h with h
          subst h
          exact ⟨rfl, DTSorted.integer⟩
        | false =>
          rw [if_neg (by simp)] at h
          obtain ⟨bb, hbb, h⟩ := bind_ok h
          cases bb with
          | true =>
            rw [if_pos rfl] at h
            obtain ⟨b, hb, h⟩ := bind_ok h
            injection h with h
            subst h
            exact ⟨rfl, DTSorted.boolean⟩
          | false =>
            rw [if_neg (by simp)] at h
            obtain ⟨bitems, hbitems, h⟩ := bind_ok h
            by_cases hc1 : (jIsStr t "array" && !bitems) = true
            · rw [if_pos hc1] at h
              injection h with h
              subst h
              exact ⟨rfl, DTSorted.array DataType.string false DTSorted.string⟩
            · rw [if_neg (by simpa using hc1)] at h
              by_cases hc2 : (jIsStr t "array" && bitems) = true
              · rw [if_pos hc2] at h
                obtain ⟨items, hit, h⟩ := bind_ok h
                obtain ⟨rows, hrows, h⟩ := bind_ok h
                injection h with h
                subst h
                obtain ⟨hch, hall⟩ := ihg items rows hrows
                exact ⟨rfl, DTSorted.array _ true (DTSorted.struct rows hch
                  (fun fl2 hfl2 => hall fl2 hfl2))⟩
              · rw [if_neg (by simpa using hc2)] at h
                by_cases hc3 : jIsStr t "object" = true
                · rw [if_pos hc3] at h
                  obtain ⟨rows, hrows, h⟩ := bind_ok h
                  injection h with h
                  subst h
                  obtain ⟨hch, hall⟩ := ihg m rows hrows
                  exact ⟨rfl, DTSorted.struct rows hch (fun fl2 hfl2 => hall fl2 hfl2)⟩
                · rw [if_neg (by simpa using hc3)] at h
                  exact absurd h (by simp)

/-- C3: on every document the translator accepts, the children of every
Struct and ArrayOfStruct node of the output — the root included — are in
ascending (non-decreasing) order of field name, whatever the key order of
the input's properties maps was. -/
theorem c3_sort_invariant (fuel : Nat) (D : Json) (t : DataType)
    (h : create_struct fuel D = Except.ok t) : DTSorted t := by
  simp only [create_struct] at h
  obtain ⟨r, hr, h⟩ := bind_ok h
  cases hc : containsRefStr r with
  | true => rw [hc] at h; rw [if_pos rfl] at h; exact absurd h (by simp)
  | false =>
    rw [hc] at h
    rw [if_neg (by simp)] at h
    obtain ⟨rows, hrows, h⟩ := bind_ok h
    injection h with h
    subst h
    obtain ⟨hch, hall⟩ := (rows_sorted_aux fuel).1 r rows hrows
    exact DTSorted.struct rows hch (fun fl hfl => hall fl hfl)

/-- C3 witness at the end-to-end document. -/
theorem c3_sort_invariant_witness :
    DTSorted (DataType.struct [StructField.mk "y"
      (DataType.array (DataType.struct [StructField.mk "z" DataType.string false]) true)
      true]) :=
  c3_sort_invariant 20 docEndToEnd _ rfl

/-- The character order is comparison of code points. -/
theorem charLt_iff (x y : Char) : x < y ↔ x.toNat < y.toNat :=
  ⟨fun h => h, fun h => h⟩

/-- Characters with equal code points are equal. -/
theorem charEq_of_toNat_eq {x y : Char} (h : x.toNat = y.toNat) : x = y :=
  Char.ext (UInt32.ext h)

/-- lexLe is the standard lexicographic order on character lists: lexLe a b
holds exactly when b is not smaller than a. -/
theorem lexLe_iff_not_lt (a : List Char) : ∀ b, lexLe a b = true ↔ ¬ b < a := by
  induction a with
  | nil =>
    intro b
    simp only [lexLe, true_iff]
    intro h
    cases h
  | cons x xs ih =>
    intro b
    cases b with
    | nil =>
      simp only [lexLe, Bool.false_eq_true, false_iff, not_not]
      exact List.Lex.nil
    | cons y ys =>
      simp only [lexLe]
      rcases Nat.lt_trichotomy x.toNat y.toNat with hlt | heq | hgt
      · rw [if_pos hlt]
        simp only [true_iff]
        intro h
        cases h with
        | cons h2 => exact absurd hlt (by omega)
        | rel h2 => exact absurd hlt (Nat.lt_asymm (charLt_iff y x |>.mp h2))
      · have hxy : x = y := charEq_of_toNat_eq heq
        subst hxy
        rw [if_neg (by omega), if_neg (by omega)]
        rw [ih ys]
        constructor
        · intro hn h
          cases h with
          | cons h2 => exact hn h2
          | rel h2 => exact absurd (charLt_iff x x |>.mp h2) (by omega)
        · intro hn h
          exact hn (List.Lex.cons h)
      · rw [if_neg (by omega), if_pos hgt]
        simp only [Bool.false_eq_true, false_iff, not_not]
        exact List.Lex.rel (charLt_iff y x |>.mpr hgt)

/-- The embedded Python string comparison agrees with the standard string
order: strLeb a b decides a <= b. -/
theorem strLeb_iff_le (a b : String) : strLeb a b = true ↔ a ≤ b := by
  rw [strLeb, lexLe_iff_not_lt, ← String.lt_iff_toList_lt]
  exact not_lt
